import Mathlib

/-
Shallow embedding of the contacts-management backend (app/main.py, app/models.py,
app/schemas.py, app/database.py) for checking the specification claims.

Modelling conventions:
- The persistent store is the generic store of spec section 6
  (get(kind, key) -> record | absent).  The users table (app/models.py, class
  User) has integer primary key `id`; `db.get(Model, key)` is a lookup by
  primary key, so a key is either an integer or the string the call site
  passed.  An integer id column value never equals an email string key, so a
  string-keyed get finds no record.  (Under the configured asyncpg driver,
  database.py line 5, such a call would instead raise a DataError; in either
  case no record is returned.)
- HTTP handlers become functions State -> Resp; an uncaught Python exception
  (AttributeError, NameError, IntegrityError) is the `pyError` outcome, which
  the framework maps to a 500 response, distinct from any HTTPException.
- Dates are coded as natural numbers (a Python `date` object is always truthy).
- app/auth.py is imported by main.py (line 9) but is not part of the sources;
  the Token Service and Credential Hasher are modelled from the spec where
  needed, and each such definition is marked `Modelled from the spec:`.
-/

namespace HW14

/-- Outcome of one request: a successful response with an HTTP status and a
body, an HTTPException raised by the handler, or an uncaught Python exception
(it surfaces as a 500 with no handler-chosen detail). -/
inductive Resp (α : Type) where
  | ok : Nat → α → Resp α
  | httpError : Nat → String → Resp α
  | pyError : String → Resp α
deriving DecidableEq, Repr

/-- Row of the `users` table (app/models.py lines 4-10): integer primary key
`id`, unique email, password hash, active flag. -/
structure User where
  id : Nat
  email : String
  hashed_password : String
  is_active : Bool
deriving DecidableEq, Repr

/-- Row of the `contacts` table (app/models.py lines 12-22). -/
structure Contact where
  id : Nat
  user_id : Nat
  first_name : String
  last_name : String
  email : String
  phone_number : String
  birthday : Nat
  additional_info : Option String
deriving DecidableEq, Repr

/-- Request body of POST /contacts/ and PUT /contacts/{id}
(app/schemas.py, class ContactCreate, lines 18-27): all fields required
except the optional free-text note.  There is no owner field. -/
structure ContactCreate where
  first_name : String
  last_name : String
  email : String
  phone_number : String
  birthday : Nat
  additional_info : Option String
deriving DecidableEq, Repr

/-- The persistent store: both tables. -/
structure DB where
  users : List User
  contacts : List Contact
deriving DecidableEq, Repr

/-- A primary-key value as passed to `db.get`: the call sites in main.py pass
either an integer id or an email string. -/
inductive PKey where
  | intKey : Nat → PKey
  | strKey : String → PKey
deriving DecidableEq, Repr

/-- Comparison of the integer `users.id` column with a primary-key argument.
An integer id never equals a string key (spec section 6 store semantics;
with asyncpg the comparison would not even be attempted but would raise,
and no record would be returned either way). -/
def pkEq (rowId : Nat) (k : PKey) : Bool :=
  match k with
  | .intKey n => rowId == n
  | .strKey _ => false

/-- `db.get(User, key)`: lookup by the primary key of the users table, which
is the integer `id` column (app/models.py line 7). -/
def dbGetUser (db : DB) (k : PKey) : Option User :=
  db.users.find? (fun u => pkEq u.id k)

/-- Autoincrement id for a fresh row. -/
def nextUserId (db : DB) : Nat := (db.users.map (fun u => u.id)).foldr max 0 + 1

/-- Autoincrement id for a fresh contact row. -/
def nextContactId (db : DB) : Nat :=
  (db.contacts.map (fun c => c.id)).foldr max 0 + 1

/-- Modelled from the spec: Credential Hasher, spec section 4.1 (`hash`);
app/auth.py (get_password_hash) is not among the sources.  Deterministic
one-way transform modelled as an injective tagging; its only property used
by the claims is that verify succeeds exactly on a matching pair. -/
def get_password_hash (password : String) : String := "bcrypt$" ++ password

/-- Modelled from the spec: Credential Hasher, spec section 4.1 (`verify`);
app/auth.py (verify_password) is not among the sources. -/
def verify_password (password hash : String) : Bool :=
  hash == get_password_hash password

/-- Python exception message raised by `user.id` when `user` is None. -/
def attrErrNone : String := "AttributeError: NoneType object has no attribute id"

/-- Python exception surfaced when an INSERT violates the unique constraint on
`users.email` (app/models.py line 8) and the commit fails uncaught. -/
def integrityErr : String :=
  "IntegrityError: duplicate key value violates unique constraint users_email_key"

/-- Python exception raised by `decode_token(token)` at main.py line 316:
the name `decode_token` is not defined in the module (line 9 imports only
`decode_access_token`). -/
def nameErr : String := "NameError: name decode_token is not defined"

/-- POST /register/ (main.py lines 56-82).  The duplicate check at line 72 is
`db.get(User, user.email)` — a primary-key get keyed with the email string.
The insert then hits the unique constraint on `users.email` whenever the
email is already stored, and the resulting IntegrityError is not caught. -/
def register (db : DB) (email password : String) : Resp User × DB :=
  match dbGetUser db (.strKey email) with
  | some _ => (.httpError 409 "Email already registered", db)
  | none =>
    let nu : User :=
      { id := nextUserId db, email := email,
        hashed_password := get_password_hash password, is_active := false }
    if db.users.any (fun u => u.email == email) then
      (.pyError integrityErr, db)
    else
      (.ok 201 nu, { db with users := db.users ++ [nu] })

/-- POST /users/ (main.py lines 91-115).  Unlike /register/, the duplicate
check at lines 107-108 filters on the email column, and the new row is
stored with is_active = True (line 112). -/
def create_user (db : DB) (email password : String) : Resp User × DB :=
  match db.users.find? (fun u => u.email == email) with
  | some _ => (.httpError 409 "Email already registered", db)
  | none =>
    let nu : User :=
      { id := nextUserId db, email := email,
        hashed_password := get_password_hash password, is_active := true }
    (.ok 201 nu, { db with users := db.users ++ [nu] })

/-- Kind of a token, spec section 3 (access | refresh). -/
inductive TokenKind where
  | access
  | refresh
deriving DecidableEq, Repr

/-- Modelled from the spec: Token Service, spec section 4.2; app/auth.py is
not among the sources.  Access TTL is short (minutes), refresh TTL long
(days); representative constants in seconds. -/
def TTL : TokenKind → Nat
  | .access => 30 * 60
  | .refresh => 7 * 24 * 60 * 60

/-- Modelled from the spec: the process-wide signing secret, loaded once at
startup (spec section 4.2). -/
def secretKey : Nat := 271828182845

/-- Numeric code of a token kind, used by the signature model. -/
def kindCode : TokenKind → Nat
  | .access => 1
  | .refresh => 2

/-- Numeric code of a string, used by the signature model. -/
def strCode (s : String) : Nat :=
  s.foldl (fun a c => a * 256 + c.toNat) 0

/-- Modelled from the spec: the signature over a token payload, keyed by the
process-wide secret (spec section 4.2: signing uses a process-wide secret). -/
def tokenMac (subject : String) (k : TokenKind) (expiry : Nat) : Nat :=
  strCode subject * 7919 + kindCode k * 104729 + expiry * 31 + secretKey

/-- A presented token string: either a well-formed signed payload or garbage. -/
inductive TokenBlob where
  | signed : String → TokenKind → Nat → Nat → TokenBlob
  | malformed : String → TokenBlob
deriving DecidableEq, Repr

/-- Result of decoding a token (spec section 4.2): the embedded subject, or
the uniform Invalid outcome. -/
inductive DecodeResult where
  | valid : String → DecodeResult
  | invalid
deriving DecidableEq, Repr

/-- Modelled from the spec: `issue(subject, kind, now)` (spec section 4.2)
produces a signed token embedding the subject and expiry = now + TTL(kind). -/
def issue (subject : String) (k : TokenKind) (now : Nat) : TokenBlob :=
  .signed subject k (now + TTL k) (tokenMac subject k (now + TTL k))

/-- Modelled from the spec: `decode(token, now)` (spec section 4.2) verifies
the signature and that now < expiry; malformed tokens, bad signatures and
expired tokens all yield the same Invalid. -/
def decode (tok : TokenBlob) (now : Nat) : DecodeResult :=
  match tok with
  | .malformed _ => .invalid
  | .signed subject k expiry sig =>
    if sig = tokenMac subject k expiry then
      if now < expiry then .valid subject else .invalid
    else .invalid

/-- POST /token (main.py lines 117-142).  The user lookup at line 133 is
`db.get(User, form_data.username)` — a primary-key get keyed with the
submitted username string.  Both a missing user and a failed password check
raise the same HTTPException (lines 134-139).  On success the handler would
issue an access and a refresh token for user.email (lines 140-142). -/
def login_for_access_token (db : DB) (username password : String) (now : Nat) :
    Resp (TokenBlob × TokenBlob) :=
  match dbGetUser db (.strKey username) with
  | none => .httpError 401 "Incorrect email or password"
  | some user =>
    if verify_password password user.hashed_password then
      .ok 200 (issue user.email .access now, issue user.email .refresh now)
    else
      .httpError 401 "Incorrect email or password"

/-- GET /users/me/ (main.py lines 144-166).  `decoded` is the result of
decode_access_token at line 159: `none` models a falsy result (None), and a
falsy subject (line 160: `if not email`) also covers the empty string.  A
failed decode raises 401; a decode that yields a subject not found by the
primary-key get at line 163 raises 404 with a different detail. -/
def read_users_me (db : DB) (decoded : Option String) : Resp User :=
  match decoded with
  | none => .httpError 401 "Could not validate credentials"
  | some email =>
    if email.isEmpty then .httpError 401 "Could not validate credentials"
    else
      match dbGetUser db (.strKey email) with
      | none => .httpError 404 "User not found"
      | some user => .ok 200 user

/-- POST /contacts/ (main.py lines 168-192).  `email` is the decoded subject
of the presented token (line 185; the handler never checks decode success —
a falsy subject would crash inside `db.get` the same way).  The user lookup
at line 187 is a primary-key get keyed with the email string; the handler
then evaluates `user.id` (line 188) with no None check.  `suppliedOwner`
models a user_id field in the raw JSON body: ContactCreate
(app/schemas.py lines 18-27) declares no owner field, so request validation
drops it before the handler runs, and it can never reach the row. -/
def create_contact (db : DB) (email : String) (body : ContactCreate)
    (suppliedOwner : Option Nat) : Resp Contact × DB :=
  let _ := suppliedOwner
  match dbGetUser db (.strKey email) with
  | none => (.pyError attrErrNone, db)
  | some user =>
    let nc : Contact :=
      { id := nextContactId db, user_id := user.id,
        first_name := body.first_name, last_name := body.last_name,
        email := body.email, phone_number := body.phone_number,
        birthday := body.birthday, additional_info := body.additional_info }
    (.ok 201 nc, { db with contacts := db.contacts ++ [nc] })

/-- GET /contacts/{id} (main.py lines 213-232).  User lookup at line 227 by
primary-key get keyed with the decoded email; `user.id` is then evaluated in
the filter at line 228 with no None check.  The contact lookup filters on
`Contact.id == contact_id AND Contact.user_id == user.id`, and a miss raises
404 "Contact not found" (lines 230-231). -/
def read_contact (db : DB) (email : String) (contact_id : Nat) : Resp Contact :=
  match dbGetUser db (.strKey email) with
  | none => .pyError attrErrNone
  | some user =>
    match db.contacts.find? (fun c => c.id == contact_id && c.user_id == user.id) with
    | none => .httpError 404 "Contact not found"
    | some c => .ok 200 c

/-- Merge loop of PUT /contacts/{id} (main.py lines 256-257):
`for var, value in vars(contact).items(): setattr(existing, var, value) if
value else None`.  vars(contact) holds exactly the six ContactCreate fields;
a field overwrites the stored value only when its value is truthy — an empty
string and None are skipped, and a date object is always truthy, so birthday
is always overwritten.  ContactCreate has no id or owner field, so those row
columns are untouched. -/
def mergeContact (existing : Contact) (body : ContactCreate) : Contact :=
  { existing with
    first_name := if body.first_name.isEmpty then existing.first_name else body.first_name
    last_name := if body.last_name.isEmpty then existing.last_name else body.last_name
    email := if body.email.isEmpty then existing.email else body.email
    phone_number := if body.phone_number.isEmpty then existing.phone_number else body.phone_number
    birthday := body.birthday
    additional_info :=
      match body.additional_info with
      | none => existing.additional_info
      | some s => if s.isEmpty then existing.additional_info else some s }

/-- PUT /contacts/{id} (main.py lines 234-259).  Same user resolution and
ownership filter as read_contact (lines 251-252); a miss raises 404
(lines 254-255); otherwise the merge loop runs.  Note line 258 calls
`db.commit()` without awaiting it, so the merged row is only mutated on the
in-session ORM object; the state change is modelled as applied to the row. -/
def update_contact (db : DB) (email : String) (contact_id : Nat)
    (body : ContactCreate) : Resp Contact × DB :=
  match dbGetUser db (.strKey email) with
  | none => (.pyError attrErrNone, db)
  | some user =>
    match db.contacts.find? (fun c => c.id == contact_id && c.user_id == user.id) with
    | none => (.httpError 404 "Contact not found", db)
    | some existing =>
      let updated := mergeContact existing body
      (.ok 200 updated,
        { db with contacts :=
            db.contacts.map (fun c => if c.id == existing.id then updated else c) })

/-- DELETE /contacts/{id} (main.py lines 261-282).  Same user resolution and
ownership filter (lines 276-277); a miss raises 404 (lines 279-280);
otherwise the row is deleted and the handler returns 204 with no body. -/
def delete_contact (db : DB) (email : String) (contact_id : Nat) :
    Resp Unit × DB :=
  match dbGetUser db (.strKey email) with
  | none => (.pyError attrErrNone, db)
  | some user =>
    match db.contacts.find? (fun c => c.id == contact_id && c.user_id == user.id) with
    | none => (.httpError 404 "Contact not found", db)
    | some c =>
      (.ok 204 (), { db with contacts := db.contacts.filter (fun x => x ≠ c) })

/-- GET /verify/{token} (main.py lines 304-324).  The first statement of the
body, line 316, evaluates `decode_token(token)`; that name is not defined
anywhere in the module (line 9 imports only decode_access_token), so every
request raises NameError before touching the store. -/
def verify_email (db : DB) (token : String) : Resp String × DB :=
  let _ := token
  (.pyError nameErr, db)

/-- Continuation of GET /verify/{token} after line 316 (main.py lines
317-324), which is dead code: had a subject been decoded, the user lookup at
line 318 is again a primary-key get keyed with the email string, so line
319-320 raises 404 "User not found"; only past that would is_active be set
and 200 returned. -/
def verify_email_after_decode (db : DB) (email : String) : Resp String × DB :=
  match dbGetUser db (.strKey email) with
  | none => (.httpError 404 "User not found", db)
  | some user =>
    let u : User := { user with is_active := true }
    (.ok 200 "Email verified",
      { db with users := db.users.map (fun x => if x.id == user.id then u else x) })

/-- The empty store. -/
def emptyDB : DB := { users := [], contacts := [] }

/-- A registered user. -/
def aliceUser : User :=
  { id := 1, email := "alice@example.com",
    hashed_password := get_password_hash "alicepw", is_active := true }

/-- A second registered user. -/
def bobUser : User :=
  { id := 2, email := "bob@example.com",
    hashed_password := get_password_hash "bobpw", is_active := true }

/-- A contact owned by bob (user id 2). -/
def bobContact : Contact :=
  { id := 7, user_id := 2, first_name := "Jane", last_name := "Doe",
    email := "jane@x.com", phone_number := "555-0100",
    birthday := 19900101, additional_info := none }

/-- A store with two users and one contact owned by bob. -/
def dbOwned : DB := { users := [aliceUser, bobUser], contacts := [bobContact] }

/-- The store after a first successful registration on the empty store. -/
def dbAfterFirstRegister : DB := (register emptyDB "user@example.com" "password").2

/-- An update body that changes the first name only. -/
def bodyFirstNameOnly : ContactCreate :=
  { first_name := "New", last_name := "", email := "", phone_number := "",
    birthday := 19900101, additional_info := none }

/-- A creation body for a fresh contact. -/
def bodyJane : ContactCreate :=
  { first_name := "Jane", last_name := "Roe", email := "jane.roe@x.com",
    phone_number := "555-0101", birthday := 19910202, additional_info := none }

/-- Helper: a primary-key get on the users table keyed with any string finds
no record, since the primary key is the integer id column. -/
theorem dbGetUser_strKey (db : DB) (s : String) :
    dbGetUser db (.strKey s) = none := by
  rw [dbGetUser, List.find?_eq_none]
  intro u _
  simp [pkEq]

/-- Helper: an email-filter search over users with no matching email finds
no record. -/
theorem find_email_eq_none {l : List User} {email : String}
    (h : l.any (fun u => u.email == email) = false) :
    l.find? (fun u => u.email == email) = none := by
  rw [List.find?_eq_none]
  intro x hx hpx
  have hall : l.any (fun u => u.email == email) = true :=
    List.any_eq_true.mpr ⟨x, hx, hpx⟩
  rw [hall] at h
  cases h

/-- C1: at the failing input — a store holding users alice (id 1) and bob
(id 2) and a contact (id 7) owned by bob — GET /contacts/7 and
DELETE /contacts/7 with a decoded subject of either user raise
AttributeError (HTTP 500): the user lookup keys the integer primary key with
the email string, finds no user, and user.id is evaluated on None.  The
claimed uniform 404 outcome is never produced. -/
theorem contact_ops_crash_not_404 :
    read_contact dbOwned "alice@example.com" 7 = .pyError attrErrNone ∧
    read_contact dbOwned "bob@example.com" 7 = .pyError attrErrNone ∧
    delete_contact dbOwned "alice@example.com" 7 = (.pyError attrErrNone, dbOwned) ∧
    read_contact dbOwned "alice@example.com" 7 ≠ .httpError 404 "Contact not found" := by
  refine ⟨rfl, rfl, rfl, ?_⟩
  decide

/-- C2: for every subject, kind and issuance time t0, decoding the issued
token at any t before t0 + TTL(kind) yields the subject, and decoding it at
any t at or after t0 + TTL(kind) yields Invalid.  (Token Service modelled
from spec section 4.2; app/auth.py is not among the sources.) -/
theorem token_issue_decode_ttl (s : String) (k : TokenKind) (t0 t : Nat) :
    (t < t0 + TTL k → decode (issue s k t0) t = .valid s) ∧
    (t0 + TTL k ≤ t → decode (issue s k t0) t = .invalid) := by
  constructor
  · intro h
    simp [decode, issue, h]
  · intro h
    simp [decode, issue, Nat.not_lt.mpr h]

/-- Witness for C2 at a concrete subject, kind and pair of times. -/
theorem token_issue_decode_ttl_witness :
    decode (issue "alice@example.com" .access 100) 105 = .valid "alice@example.com" ∧
    decode (issue "alice@example.com" .access 100) (100 + TTL .access) = .invalid :=
  ⟨(token_issue_decode_ttl "alice@example.com" .access 100 105).1 (by decide),
   (token_issue_decode_ttl "alice@example.com" .access 100 (100 + TTL .access)).2
     (by decide)⟩

/-- C3 counterexample: on a store holding alice, a failed decode yields
401 with detail Could not validate credentials, while a decoded subject
matching no stored user yields 404 with detail User not found — the two
failure causes produce different outcomes, so they are distinguishable,
refuting the claim that both give one uniform Unauthenticated outcome. -/
theorem gateway_failures_distinguishable_cex :
    read_users_me dbOwned none = .httpError 401 "Could not validate credentials" ∧
    read_users_me dbOwned (some "ghost@example.com") = .httpError 404 "User not found" ∧
    read_users_me dbOwned none ≠ read_users_me dbOwned (some "ghost@example.com") := by
  refine ⟨rfl, rfl, ?_⟩
  decide

/-- C3 amended: for every store, a request whose token fails to decode (or
decodes to a falsy subject) gets 401 Could not validate credentials, while a
request whose token decodes to a nonempty subject gets the distinct outcome
404 User not found (the primary-key get never resolves the subject), so the
caller can distinguish the two failure causes. -/
theorem gateway_unauth_401_vs_notfound_404 (db : DB) (email : String)
    (h : email.isEmpty = false) :
    read_users_me db none = .httpError 401 "Could not validate credentials" ∧
    read_users_me db (some email) = .httpError 404 "User not found" ∧
    read_users_me db none ≠ read_users_me db (some email) := by
  have h404 : read_users_me db (some email) = .httpError 404 "User not found" := by
    simp [read_users_me, h, dbGetUser_strKey]
  refine ⟨rfl, h404, ?_⟩
  rw [h404]
  simp [read_users_me]

/-- Witness for the amended C3 at a concrete store and subject. -/
theorem gateway_unauth_401_vs_notfound_404_witness :
    ("ghost@example.com".isEmpty = false) ∧
    read_users_me dbOwned (some "ghost@example.com") = .httpError 404 "User not found" :=
  ⟨by decide,
   (gateway_unauth_401_vs_notfound_404 dbOwned "ghost@example.com" (by decide)).2.1⟩

/-- C4: a login attempt with a stored user's email but a wrong password and a
login attempt with an email matching no stored user produce identical
outcomes: the same 401 response carrying Incorrect email or password. -/
theorem login_failures_identical (db : DB) (u : User) (pw1 e2 pw2 : String)
    (now : Nat) (_hu : u ∈ db.users)
    (_hwrong : verify_password pw1 u.hashed_password = false)
    (_hunknown : db.users.any (fun x => x.email == e2) = false) :
    login_for_access_token db u.email pw1 now =
      .httpError 401 "Incorrect email or password" ∧
    login_for_access_token db e2 pw2 now =
      login_for_access_token db u.email pw1 now := by
  have l1 : login_for_access_token db u.email pw1 now =
      .httpError 401 "Incorrect email or password" := by
    simp [login_for_access_token, dbGetUser_strKey]
  have l2 : login_for_access_token db e2 pw2 now =
      .httpError 401 "Incorrect email or password" := by
    simp [login_for_access_token, dbGetUser_strKey]
  exact ⟨l1, l2.trans l1.symm⟩

/-- Witness for C4: alice is stored, the password is wrong for her hash, no
user has the ghost email, and the two attempts coincide. -/
theorem login_failures_identical_witness :
    aliceUser ∈ dbOwned.users ∧
    verify_password "wrong" aliceUser.hashed_password = false ∧
    dbOwned.users.any (fun x => x.email == "ghost@example.com") = false ∧
    login_for_access_token dbOwned "ghost@example.com" "whatever" 0 =
      login_for_access_token dbOwned aliceUser.email "wrong" 0 :=
  ⟨by decide, by decide, by decide,
   (login_failures_identical dbOwned aliceUser "wrong" "ghost@example.com"
     "whatever" 0 (by decide) (by decide) (by decide)).2⟩

/-- C5: at the failing input — registering user@example.com twice — the
first POST /register/ succeeds with 201, but the second does not yield the
claimed 409 Conflict: the duplicate check keys the integer primary key with
the email string and misses the stored row, so the insert violates the
unique email constraint and the uncaught IntegrityError surfaces as a 500. -/
theorem register_duplicate_not_conflict :
    (register emptyDB "user@example.com" "password").1 =
      .ok 201 { id := 1, email := "user@example.com",
                hashed_password := get_password_hash "password",
                is_active := false } ∧
    (register dbAfterFirstRegister "user@example.com" "password").1 =
      .pyError integrityErr ∧
    (register dbAfterFirstRegister "user@example.com" "password").1 ≠
      .httpError 409 "Email already registered" := by
  refine ⟨rfl, rfl, ?_⟩
  decide

/-- C6: at the failing input — PUT /contacts/7 by the contact's owner with a
body whose only truthy string field is first_name — the handler raises
AttributeError (HTTP 500) before the merge loop runs (the user lookup keys
the integer primary key with the email string), the store is unchanged, and
the outcome is not the claimed 200 with the falsy-skip merge applied. -/
theorem update_contact_crashes_before_merge :
    (update_contact dbOwned "bob@example.com" 7 bodyFirstNameOnly).1 =
      .pyError attrErrNone ∧
    (update_contact dbOwned "bob@example.com" 7 bodyFirstNameOnly).2 = dbOwned ∧
    (update_contact dbOwned "bob@example.com" 7 bodyFirstNameOnly).1 ≠
      .ok 200 (mergeContact bobContact bodyFirstNameOnly) := by
  refine ⟨rfl, rfl, ?_⟩
  decide

/-- C7: at the failing input — POST /contacts/ with the decoded subject of
registered user alice and any owner field in the raw body — the handler
raises AttributeError (HTTP 500) at user.id (the user lookup keys the
integer primary key with the email string and returns None), and no contact
is stored at all. -/
theorem create_contact_crashes (ownerField : Option Nat) :
    (create_contact dbOwned "alice@example.com" bodyJane ownerField).1 =
      .pyError attrErrNone ∧
    (create_contact dbOwned "alice@example.com" bodyJane ownerField).2 = dbOwned :=
  ⟨rfl, rfl⟩

/-- C8: for every stored user row with a nonempty email, the primary-key get
keyed with that user's email returns no record (the users table's primary
key is the integer id column), so the credential lookup in login yields the
uniform 401 and the current-user lookup in read_users_me yields 404 even
though the user is stored. -/
theorem pk_get_by_email_misses_row (db : DB) (u : User) (pw : String)
    (now : Nat) (_hu : u ∈ db.users) (hne : u.email.isEmpty = false) :
    dbGetUser db (.strKey u.email) = none ∧
    login_for_access_token db u.email pw now =
      .httpError 401 "Incorrect email or password" ∧
    read_users_me db (some u.email) = .httpError 404 "User not found" := by
  refine ⟨dbGetUser_strKey db u.email, ?_, ?_⟩
  · simp [login_for_access_token, dbGetUser_strKey]
  · simp [read_users_me, hne, dbGetUser_strKey]

/-- Witness for C8 at the stored user alice. -/
theorem pk_get_by_email_misses_row_witness :
    aliceUser ∈ dbOwned.users ∧ aliceUser.email.isEmpty = false ∧
    dbGetUser dbOwned (.strKey aliceUser.email) = none :=
  ⟨by decide, by decide,
   (pk_get_by_email_misses_row dbOwned aliceUser "pw" 0 (by decide) (by decide)).1⟩

/-- C9: at the failing input — GET /verify/sometoken on a store holding
alice — the handler raises NameError (decode_token is undefined in the
module) and leaves the store unchanged; and even the dead code past that
point would yield 404 User not found (the primary-key get keyed with the
email string finds no user), so the active flag is never set and 200 is
never returned. -/
theorem verify_email_never_activates :
    verify_email dbOwned "sometoken" = (.pyError nameErr, dbOwned) ∧
    verify_email_after_decode dbOwned "alice@example.com" =
      (.httpError 404 "User not found", dbOwned) ∧
    (verify_email dbOwned "sometoken").2.users = dbOwned.users :=
  ⟨rfl, rfl, rfl⟩

/-- C10: for every store and fresh email, POST /register/ stores the new
user with is_active = false while POST /users/ stores it with
is_active = true, both returning 201 with the stored row. -/
theorem register_inactive_create_user_active (db : DB) (email pw : String)
    (h : db.users.any (fun u => u.email == email) = false) :
    (register db email pw).1 =
      .ok 201 { id := nextUserId db, email := email,
                hashed_password := get_password_hash pw, is_active := false } ∧
    (register db email pw).2.users =
      db.users ++ [{ id := nextUserId db, email := email,
                     hashed_password := get_password_hash pw, is_active := false }] ∧
    (create_user db email pw).1 =
      .ok 201 { id := nextUserId db, email := email,
                hashed_password := get_password_hash pw, is_active := true } ∧
    (create_user db email pw).2.users =
      db.users ++ [{ id := nextUserId db, email := email,
                     hashed_password := get_password_hash pw, is_active := true }] := by
  have hfind : db.users.find? (fun u => u.email == email) = none :=
    find_email_eq_none h
  refine ⟨?_, ?_, ?_, ?_⟩
  · simp [register, dbGetUser_strKey, h]
  · simp [register, dbGetUser_strKey, h]
  · simp [create_user, hfind]
  · simp [create_user, hfind]

/-- Witness for C10 on the empty store with a fresh email. -/
theorem register_inactive_create_user_active_witness :
    (emptyDB.users.any (fun u => u.email == "carol@example.com") = false) ∧
    (register emptyDB "carol@example.com" "pw").2.users =
      emptyDB.users ++ [{ id := nextUserId emptyDB, email := "carol@example.com",
                          hashed_password := get_password_hash "pw",
                          is_active := false }] ∧
    (create_user emptyDB "carol@example.com" "pw").2.users =
      emptyDB.users ++ [{ id := nextUserId emptyDB, email := "carol@example.com",
                          hashed_password := get_password_hash "pw",
                          is_active := true }] :=
  ⟨by decide,
   (register_inactive_create_user_active emptyDB "carol@example.com" "pw"
     (by decide)).2.1,
   (register_inactive_create_user_active emptyDB "carol@example.com" "pw"
     (by decide)).2.2.2⟩

end HW14
